import Mathlib

/-!
Verification of the concurrent trade lifecycle engine of the
Trade-Kotak-Assignment repository (packages `kotak_algo_cli` and
`kotak_algo_cli_live`; the two copies of `trade.py` / `trade_manager.py`
are line-for-line equivalent up to comments, so one embedding covers both).

The embedding is shallow: the Python dataclasses of `models.py` become Lean
structures, prices (Python floats used only with exact `+`/`-`) become `ℚ`,
the gateway (`KotakNeoClient`) is modelled by the sequence of responses it
returns to the successive calls, and each coroutine becomes a pure function
from its inputs and the gateway responses to a record of its observable
effects (orders passed to `place_order`, sleeps, cancel requests, the
monitoring task it spawns, its return value).  Python `dict`s become
insertion-ordered association lists, matching `dict` key order.
-/

/-- `models.TradeSide`. -/
inductive TradeSide
  | BUY
  | SELL
deriving DecidableEq, Repr

/-- `models.OrderType`. -/
inductive OrderType
  | MARKET
  | LIMIT
  | STOP_LOSS
  | TARGET
deriving DecidableEq, Repr

/-- `models.Order` (the fields the engine reads/writes; `status`,
`filled_quantity`, `average_price`, `timestamp` are never consulted by the
executor or the monitor and are omitted).  `__post_init__`'s uuid for a
`None` order id is not modelled: the engine overwrites the id with the
gateway-assigned id before ever reading it. -/
structure Order where
  order_id : Option String
  symbol : String
  order_type : OrderType
  side : TradeSide
  quantity : Nat
  price : Option ℚ := none
  trigger_price : Option ℚ := none
deriving DecidableEq, Repr

/-- `models.Trade`.  `__post_init__` generates a fresh uuid when
`trade_id` is passed as `None`; the embedding takes that generated id as an
explicit parameter, so `trade_id` is always a `String` here. -/
structure Trade where
  trade_id : String
  symbol : String
  side : TradeSide
  quantity : Nat
  entry_price : ℚ
  stop_loss_points : ℚ
  target_points : ℚ
  market_order : Order
  stop_loss_order : Order
  target_order : Order
  active : Bool := true
deriving DecidableEq, Repr

/-- `models.TradeResult`. -/
structure TradeResult where
  success : Bool
  message : String
  trade_id : Option String := none
  order_ids : Option (List String) := none
deriving DecidableEq, Repr

/-- Python truthiness of an optional order id, as tested by
`if not market_order_id:` — `None` and the empty string are falsy. -/
def truthy : Option String → Bool
  | none => false
  | some s => !s.isEmpty

/-- The observable effects of one `TradeExecutor.execute_trade` call:
the three `Order` values it constructs, the orders passed to
`client.place_order` in call order, the number of `asyncio.sleep` calls,
the `Trade` handed to `start_order_monitoring` (if reached), and the
returned `TradeResult`. -/
structure ExecEffects where
  built_market : Order
  built_stop_loss : Order
  built_target : Order
  placed : List Order
  sleeps : Nat
  monitored : Option Trade
  result : TradeResult
deriving DecidableEq, Repr

/-- `TradeExecutor.execute_trade` (`trade.py`).  `responses` is the
sequence of values returned by the successive `client.place_order` calls;
`trade_uuid` is the uuid that `Trade.__post_init__` generates for the
trade.  Python's in-place `order.order_id = ...` mutations become rebound
copies (`market_order1`, ...). -/
def execute_trade (symbol : String) (side : TradeSide) (quantity : Nat)
    (entry_price stop_loss_points target_points : ℚ)
    (responses : List (Option String)) (trade_uuid : String) : ExecEffects :=
  let stop_loss_price : ℚ :=
    if side = TradeSide.BUY then entry_price - stop_loss_points
    else entry_price + stop_loss_points
  let target_price : ℚ :=
    if side = TradeSide.BUY then entry_price + target_points
    else entry_price - target_points
  let market_order : Order :=
    { order_id := none, symbol := symbol, order_type := OrderType.MARKET,
      side := side, quantity := quantity, price := some entry_price }
  let opposite_side : TradeSide :=
    if side = TradeSide.BUY then TradeSide.SELL else TradeSide.BUY
  let stop_loss_order : Order :=
    { order_id := none, symbol := symbol, order_type := OrderType.STOP_LOSS,
      side := opposite_side, quantity := quantity,
      trigger_price := some stop_loss_price, price := some stop_loss_price }
  let target_order : Order :=
    { order_id := none, symbol := symbol, order_type := OrderType.TARGET,
      side := opposite_side, quantity := quantity,
      trigger_price := some target_price, price := some target_price }
  let market_order_id := responses.getD 0 none
  if !truthy market_order_id then
    { built_market := market_order, built_stop_loss := stop_loss_order,
      built_target := target_order, placed := [market_order], sleeps := 0,
      monitored := none,
      result := { success := false, message := "Failed to place market order" } }
  else
  let market_order1 : Order := { market_order with order_id := market_order_id }
  -- await asyncio.sleep(0.5)
  let sl_order_id := responses.getD 1 none
  if !truthy sl_order_id then
    { built_market := market_order, built_stop_loss := stop_loss_order,
      built_target := target_order,
      placed := [market_order, stop_loss_order], sleeps := 1,
      monitored := none,
      result := { success := false, message := "Failed to place stop loss order" } }
  else
  let stop_loss_order1 : Order := { stop_loss_order with order_id := sl_order_id }
  let target_order_id := responses.getD 2 none
  if !truthy target_order_id then
    { built_market := market_order, built_stop_loss := stop_loss_order,
      built_target := target_order,
      placed := [market_order, stop_loss_order, target_order], sleeps := 1,
      monitored := none,
      result := { success := false, message := "Failed to place target order" } }
  else
  let target_order1 : Order := { target_order with order_id := target_order_id }
  let trade : Trade :=
    { trade_id := trade_uuid, symbol := symbol, side := side,
      quantity := quantity, entry_price := entry_price,
      stop_loss_points := stop_loss_points, target_points := target_points,
      market_order := market_order1, stop_loss_order := stop_loss_order1,
      target_order := target_order1 }
  { built_market := market_order, built_stop_loss := stop_loss_order,
    built_target := target_order,
    placed := [market_order, stop_loss_order, target_order], sleeps := 1,
    monitored := some trade,
    result :=
      { success := true,
        message := "Trade placed successfully. Orders: "
          ++ market_order_id.getD "" ++ ", SL: " ++ sl_order_id.getD ""
          ++ ", Target: " ++ target_order_id.getD "",
        trade_id := some trade_uuid,
        order_ids := some [market_order_id.getD "", sl_order_id.getD "",
                           target_order_id.getD ""] } }

/-- The side opposite to an entry side, as computed by
`opposite_side = TradeSide.SELL if side == TradeSide.BUY else TradeSide.BUY`. -/
def oppositeSide : TradeSide → TradeSide
  | TradeSide.BUY => TradeSide.SELL
  | TradeSide.SELL => TradeSide.BUY

/-! ## The OCO monitor (`TradeExecutor._monitor_oco_orders`)

One loop iteration reads `client.get_order_status` for both exit legs.
A gateway response is modelled as `Option (Option String)`: `none` when the
call returned no data (`sl_status is None`), `some st` when it returned a
dict whose `'status'` key holds `st` (`st = none` when the key is missing,
since `dict.get` then yields `None`). -/

/-- A poll: the two `get_order_status` responses of one iteration
(stop-loss leg first, target leg second, as in the code). -/
abbrev Poll := Option (Option String) × Option (Option String)

/-- The terminal-fill status strings tested by the monitor. -/
def TERMINAL_STATUSES : List String := ["COMPLETE", "FILLED", "EXECUTED"]

/-- The still-live status strings tested by the cancel guard. -/
def LIVE_STATUSES : List String := ["PENDING", "TRIGGER_PENDING", "OPEN"]

/-- `status.get('status') in ['COMPLETE', 'FILLED', 'EXECUTED']`. -/
def isTerminalFilled : Option String → Bool
  | some s => TERMINAL_STATUSES.contains s
  | none => false

/-- `status.get('status') in ['PENDING', 'TRIGGER_PENDING', 'OPEN']`. -/
def isStillLive : Option String → Bool
  | some s => LIVE_STATUSES.contains s
  | none => false

/-- Which exit leg resolved the OCO race in an iteration. -/
inductive OcoWinner
  | stopLoss
  | target
deriving DecidableEq, Repr

/-- The observable effects of one monitor-loop iteration: the order ids
passed to `client.cancel_order`, which branch (if any) resolved the race,
whether `trade.active` was set to `false`, and the number of
`asyncio.sleep(1)` calls. -/
structure IterEffect where
  cancel_requests : List (Option String)
  winner : Option OcoWinner
  set_inactive : Bool
  sleeps : Nat
deriving DecidableEq, Repr

/-- One iteration of the `while trade.active:` loop body of
`_monitor_oco_orders`, given the two status responses of this iteration. -/
def monitor_iter (trade : Trade) (sl_status target_status :
    Option (Option String)) : IterEffect :=
  if sl_status = none ∨ target_status = none then
    { cancel_requests := [], winner := none, set_inactive := false, sleeps := 1 }
  else
    let sl_st := sl_status.getD none
    let tg_st := target_status.getD none
    if isTerminalFilled sl_st then
      { cancel_requests :=
          if isStillLive tg_st then [trade.target_order.order_id] else [],
        winner := some OcoWinner.stopLoss, set_inactive := true, sleeps := 0 }
    else if isTerminalFilled tg_st then
      { cancel_requests :=
          if isStillLive sl_st then [trade.stop_loss_order.order_id] else [],
        winner := some OcoWinner.target, set_inactive := true, sleeps := 0 }
    else
      { cancel_requests := [], winner := none, set_inactive := false, sleeps := 1 }

/-- The monitor-loop state: the trade's `active` flag, the accumulated
cancel requests, whether some iteration resolved the race (i.e. the loop
ended via `break`), and the accumulated sleep count. -/
structure MonState where
  active : Bool
  cancel_requests : List (Option String)
  resolved : Bool
  sleeps : Nat
deriving DecidableEq, Repr

/-- The monitor state when `_monitor_oco_orders` starts. -/
def initMonState (trade : Trade) : MonState :=
  { active := trade.active, cancel_requests := [], resolved := false, sleeps := 0 }

/-- One step of the monitor loop.  If the loop has already exited (guard
`while trade.active` false, or a previous iteration broke) the step is a
no-op; otherwise the iteration effect is applied. -/
def monitor_step (trade : Trade) (s : MonState) (p : Poll) : MonState :=
  if s.active = false ∨ s.resolved = true then s
  else
    let e := monitor_iter trade p.1 p.2
    { active := if e.set_inactive then false else s.active,
      cancel_requests := s.cancel_requests ++ e.cancel_requests,
      resolved := s.resolved || e.winner.isSome,
      sleeps := s.sleeps + e.sleeps }

/-- Run the monitor loop over a finite sequence of polls.  External
cancellation of the monitor task after `k` iterations is modelled by
running on the length-`k` prefix of the poll sequence: `task.cancel()`
aborts the coroutine at its next suspension point and executes no further
statement of the loop body. -/
def monitor_run (trade : Trade) (polls : List Poll) (s : MonState) : MonState :=
  polls.foldl (monitor_step trade) s

/-- A concrete bracket trade (spec Scenario 1: Buy 10 XYZ @ 100, SL 5,
Target 10) used to instantiate the monitor-level theorems. -/
def sampleTrade : Trade :=
  { trade_id := "TR1", symbol := "XYZ", side := TradeSide.BUY, quantity := 10,
    entry_price := 100, stop_loss_points := 5, target_points := 10,
    market_order :=
      { order_id := some "M1", symbol := "XYZ", order_type := OrderType.MARKET,
        side := TradeSide.BUY, quantity := 10, price := some 100 },
    stop_loss_order :=
      { order_id := some "S1", symbol := "XYZ",
        order_type := OrderType.STOP_LOSS, side := TradeSide.SELL,
        quantity := 10, trigger_price := some 95, price := some 95 },
    target_order :=
      { order_id := some "T1", symbol := "XYZ", order_type := OrderType.TARGET,
        side := TradeSide.SELL, quantity := 10, trigger_price := some 110,
        price := some 110 } }

/-- Monitor-state invariant: a resolved loop has set the flag to false. -/
def MonGood (s : MonState) : Prop := s.resolved = true → s.active = false

/-! ## Executor tracking maps and the Trade Manager registry

Python `dict`s are modelled as insertion-ordered association lists
(`active_trades`) or key lists (`active_orders` / `trade_locks` /
`ltp_streams`, whose values — tasks and locks — carry no data the claims
read beyond presence). -/

/-- `TradeManager.active_trades : Dict[str, Trade]`. -/
abbrev Registry := List (String × Trade)

/-- `del d[k]` on an association list (dict keys are unique, so removing
every pair with key `k` removes exactly the one entry). -/
def dict_del (r : Registry) (k : String) : Registry :=
  r.filter (fun p => p.1 != k)

/-- `d[k] = v` on an association list: replace in place if present,
append otherwise (Python dict update keeps insertion order). -/
def dict_set (r : Registry) (k : String) (v : Trade) : Registry :=
  if (r.map Prod.fst).contains k then
    r.map (fun p => if p.1 = k then (k, v) else p)
  else r ++ [(k, v)]

/-- `d[k] = v` on a key list (value irrelevant). -/
def dict_insert_key (ks : List String) (k : String) : List String :=
  if ks.contains k then ks else ks ++ [k]

/-- `del d[k]` on a key list. -/
def dict_del_key (ks : List String) (k : String) : List String :=
  ks.filter (fun a => a != k)

/-- The `TradeExecutor`'s two tracking maps, by key:
`active_orders : Dict[str, asyncio.Task]` and
`trade_locks : Dict[str, asyncio.Lock]`. -/
structure ExecMaps where
  active_orders : List String
  trade_locks : List String
deriving DecidableEq, Repr

/-- The executor's maps at construction (`__init__`). -/
def emptyExecMaps : ExecMaps := { active_orders := [], trade_locks := [] }

/-- `TradeExecutor.start_order_monitoring`: allocate the per-trade lock,
spawn the monitor task, track it under the trade id. -/
def start_order_monitoring (m : ExecMaps) (trade_id : String) : ExecMaps :=
  { trade_locks := dict_insert_key m.trade_locks trade_id,
    active_orders := dict_insert_key m.active_orders trade_id }

/-- `TradeExecutor._cleanup_trade_resources`. -/
def cleanup_trade_resources (m : ExecMaps) (trade_id : String) : ExecMaps :=
  let m1 :=
    if m.active_orders.contains trade_id then
      { m with active_orders := dict_del_key m.active_orders trade_id }
    else m
  if m1.trade_locks.contains trade_id then
    { m1 with trade_locks := dict_del_key m1.trade_locks trade_id }
  else m1

/-- A completed monitor-task lifetime for one trade id:
`start_order_monitoring` registers it, and when the monitor task ends (by
OCO resolution or cancellation) the `add_done_callback` hook runs
`_cleanup_trade_resources` once. -/
def monitor_cycle (m : ExecMaps) (trade_id : String) : ExecMaps :=
  cleanup_trade_resources (start_order_monitoring m trade_id) trade_id

/-- `TradeExecutor.cancel_trade_orders`: when a monitor task is tracked
under the id it is cancelled and awaited — awaiting the finished task means
its completion callback (`_cleanup_trade_resources`) has run; the function
returns `True` unconditionally. -/
def cancel_trade_orders (m : ExecMaps) (trade_id : String) :
    ExecMaps × Bool :=
  if m.active_orders.contains trade_id then
    (cleanup_trade_resources m trade_id, true)
  else (m, true)

/-- The `TradeManager` state the claims read: the `active_trades`
registry and the executor it owns (the `ltp_streams` registry is handled
separately by the event-trace model below). -/
structure MgrState where
  active_trades : Registry
  exec : ExecMaps
deriving DecidableEq, Repr

/-- `TradeManager.add_active_trade`. -/
def add_active_trade (s : MgrState) (t : Trade) : MgrState :=
  { s with active_trades := dict_set s.active_trades t.trade_id t }

/-- `TradeManager.remove_active_trade`. -/
def remove_active_trade (s : MgrState) (trade_id : String) : MgrState :=
  if (s.active_trades.map Prod.fst).contains trade_id then
    { s with active_trades := dict_del s.active_trades trade_id }
  else s

/-- `TradeManager.get_active_trades_count`. -/
def get_active_trades_count (s : MgrState) : Nat := s.active_trades.length

/-- `TradeManager.get_active_trades` (snapshot of the values). -/
def get_active_trades (s : MgrState) : List Trade :=
  s.active_trades.map Prod.snd

/-- `TradeManager.cancel_trade`: delegate to the executor, and remove the
id from the registry when (always) the executor reports success. -/
def cancel_trade (s : MgrState) (trade_id : String) : MgrState × Bool :=
  let r := cancel_trade_orders s.exec trade_id
  let s1 : MgrState := { s with exec := r.1 }
  if r.2 then (remove_active_trade s1 trade_id, r.2) else (s1, r.2)

/-- `TradeManager.cancel_all_trades`: snapshot the ids under the lock,
then cancel each outside the lock. -/
def cancel_all_trades (s : MgrState) : MgrState :=
  let trade_ids := s.active_trades.map Prod.fst
  trade_ids.foldl (fun st id => (cancel_trade st id).1) s

/-- One row of `TradeManager.get_overall_status`'s `'trades'` list. -/
structure TradeSummary where
  trade_id : String
  symbol : String
  side : String
  quantity : Nat
  entry_price : ℚ
  active : Bool
deriving DecidableEq, Repr

/-- `TradeSide.value`. -/
def sideValue : TradeSide → String
  | TradeSide.BUY => "BUY"
  | TradeSide.SELL => "SELL"

/-- `TradeManager.get_overall_status`: the count and the per-trade
summary rows. -/
def get_overall_status (s : MgrState) : Nat × List TradeSummary :=
  (get_active_trades_count s,
   (get_active_trades s).map (fun t =>
     { trade_id := t.trade_id, symbol := t.symbol, side := sideValue t.side,
       quantity := t.quantity, entry_price := t.entry_price,
       active := t.active }))

/-- `TradeManager.execute_new_trade`: under the trade lock, delegate to
`TradeExecutor.execute_trade` (whose success path registers the monitor
task in the executor's maps via `start_order_monitoring`), log, and return
the executor's result unchanged. -/
def mgr_execute_new_trade (s : MgrState) (symbol : String) (side : TradeSide)
    (quantity : Nat) (entry_price stop_loss_points target_points : ℚ)
    (responses : List (Option String)) (trade_uuid : String) :
    MgrState × TradeResult :=
  let e := execute_trade symbol side quantity entry_price stop_loss_points
    target_points responses trade_uuid
  let exec1 :=
    match e.monitored with
    | some t => start_order_monitoring s.exec t.trade_id
    | none => s.exec
  ({ s with exec := exec1 }, e.result)

/-! ## Lock/suspension event traces

For the lock-discipline claims each `TradeManager` coroutine is abstracted
to its sequence of lock acquisitions/releases and suspension points (every
awaited gateway call, `asyncio.sleep`, and `await` of another task). -/

/-- The two `TradeManager` locks (`trade_lock`, `stream_lock`). -/
inductive LockId
  | tradeLock
  | streamLock
deriving DecidableEq, Repr

/-- A lock/suspension event. -/
inductive Ev
  | acquire (l : LockId)
  | release (l : LockId)
  | susp
deriving DecidableEq, Repr

/-- Whether lock `l` is held at some suspension event of the trace,
given whether it is held on entry. -/
def heldAcrossSusp (l : LockId) : List Ev → Bool → Bool
  | [], _ => false
  | Ev.acquire l2 :: rest, held => heldAcrossSusp l rest (held || l2 == l)
  | Ev.release l2 :: rest, held => heldAcrossSusp l rest (held && !(l2 == l))
  | Ev.susp :: rest, held => held || heldAcrossSusp l rest held

/-- Whether lock `l` is held after the trace, given the state on entry. -/
def heldAfter (l : LockId) : List Ev → Bool → Bool
  | [], held => held
  | Ev.acquire l2 :: rest, held => heldAfter l rest (held || l2 == l)
  | Ev.release l2 :: rest, held => heldAfter l rest (held && !(l2 == l))
  | Ev.susp :: rest, held => heldAfter l rest held

/-- Suspension points of one `TradeExecutor.execute_trade` call: the
awaited entry placement; then, if it produced an id, the settle sleep and
the awaited stop-loss placement; then, if that produced an id, the awaited
target placement (`start_order_monitoring` awaits nothing). -/
def execute_trade_susps (responses : List (Option String)) : List Ev :=
  Ev.susp ::
    (if !truthy (responses.getD 0 none) then [] else
      Ev.susp :: Ev.susp ::
        (if !truthy (responses.getD 1 none) then [] else [Ev.susp]))

/-- Event trace of `TradeManager.execute_new_trade`: the whole executor
call happens inside `async with self.trade_lock`. -/
def execute_new_trade_events (responses : List (Option String)) : List Ev :=
  Ev.acquire LockId.tradeLock ::
    (execute_trade_susps responses ++ [Ev.release LockId.tradeLock])

/-- Event trace of `TradeManager.start_ltp_stream_for_symbol`: under
`async with self.stream_lock`, an existing stream task for the symbol is
cancelled and awaited (a suspension), then the new task is created
(`asyncio.create_task` does not suspend). -/
def start_ltp_stream_events (streams : List String) (symbol : String) :
    List Ev :=
  Ev.acquire LockId.streamLock ::
    ((if streams.contains symbol then [Ev.susp] else []) ++
      [Ev.release LockId.streamLock])

/-- Event trace of `TradeManager.cancel_trade`: awaiting the cancelled
monitor task when one is tracked (a suspension, outside any lock), then
`remove_active_trade`'s `async with self.trade_lock` (no suspension while
held). -/
def cancel_trade_events (m : ExecMaps) (trade_id : String) : List Ev :=
  (if m.active_orders.contains trade_id then [Ev.susp] else []) ++
    [Ev.acquire LockId.tradeLock, Ev.release LockId.tradeLock]

/-- Event traces of the sequential `cancel_trade` calls of
`cancel_all_trades`, threading the evolving state. -/
def cancel_each_events (s : MgrState) : List String → List Ev
  | [] => []
  | id :: rest =>
      cancel_trade_events s.exec id ++
        cancel_each_events (cancel_trade s id).1 rest

/-- Event trace of `TradeManager.cancel_all_trades`: snapshot the ids
under the lock (no suspension inside), release, then cancel each. -/
def cancel_all_trades_events (s : MgrState) : List Ev :=
  Ev.acquire LockId.tradeLock :: Ev.release LockId.tradeLock ::
    cancel_each_events s (s.active_trades.map Prod.fst)

/-- An empty manager (fresh `TradeManager` over a fresh executor). -/
def emptyMgrState : MgrState := { active_trades := [], exec := emptyExecMaps }

/-! ## Theorems -/

/-- C1: under either side, the stop/target trigger prices are
`entryPrice ∓ points` (Buy: stop below, target above; Sell mirrored), the
entry order carries the entry side, and both exit legs carry the opposite
side — on every call, whatever the gateway answers. -/
theorem execute_trade_price_and_side_correct (symbol : String)
    (side : TradeSide) (quantity : Nat)
    (entry_price stop_loss_points target_points : ℚ)
    (responses : List (Option String)) (trade_uuid : String) :
    let e := execute_trade symbol side quantity entry_price stop_loss_points
      target_points responses trade_uuid
    e.built_stop_loss.trigger_price =
      some (if side = TradeSide.BUY then entry_price - stop_loss_points
            else entry_price + stop_loss_points) ∧
    e.built_target.trigger_price =
      some (if side = TradeSide.BUY then entry_price + target_points
            else entry_price - target_points) ∧
    e.built_market.side = side ∧
    e.built_stop_loss.side = oppositeSide side ∧
    e.built_target.side = oppositeSide side := by
  cases side <;>
    simp only [execute_trade, oppositeSide] <;>
    split_ifs <;> simp_all

/-- C2: when the gateway returns no usable id for the entry (market) leg,
`execute_trade` fails fast — result is `success = false`, exactly one
`place_order` call was made (the entry order), no monitoring task is
started, and the executor's tracking maps are left untouched by the
enclosing `execute_new_trade`. -/
theorem execute_trade_fail_fast (s : MgrState) (symbol : String)
    (side : TradeSide)
    (quantity : Nat) (entry_price stop_loss_points target_points : ℚ)
    (responses : List (Option String)) (trade_uuid : String)
    (h : truthy (responses.getD 0 none) = false) :
    let e := execute_trade symbol side quantity entry_price stop_loss_points
      target_points responses trade_uuid
    e.result.success = false ∧
    e.placed = [e.built_market] ∧
    e.monitored = none ∧
    (mgr_execute_new_trade s symbol side quantity entry_price stop_loss_points
      target_points responses trade_uuid).1 = s := by
  have hmain : (execute_trade symbol side quantity entry_price stop_loss_points
      target_points responses trade_uuid).result.success = false ∧
      (execute_trade symbol side quantity entry_price stop_loss_points
        target_points responses trade_uuid).placed =
        [(execute_trade symbol side quantity entry_price stop_loss_points
          target_points responses trade_uuid).built_market] ∧
      (execute_trade symbol side quantity entry_price stop_loss_points
        target_points responses trade_uuid).monitored = none := by
    simp only [execute_trade, h]
    simp
  refine ⟨hmain.1, hmain.2.1, hmain.2.2, ?_⟩
  simp only [mgr_execute_new_trade, hmain.2.2]

/-- C2 witness: a concrete call whose entry placement returns `None`. -/
theorem execute_trade_fail_fast_witness :
    let e := execute_trade "XYZ" TradeSide.BUY 10 100 5 10 [none] "TR1"
    e.result.success = false ∧
    e.placed = [e.built_market] ∧
    e.monitored = none ∧
    (mgr_execute_new_trade emptyMgrState "XYZ" TradeSide.BUY 10 100 5 10
      [none] "TR1").1 = emptyMgrState :=
  execute_trade_fail_fast emptyMgrState "XYZ" TradeSide.BUY 10 100 5 10 [none]
    "TR1" (by decide)

/-- A terminal-fill status string is never a still-live status string. -/
theorem terminal_not_live (st : Option String)
    (h : isTerminalFilled st = true) : isStillLive st = false := by
  cases st with
  | none => simp [isTerminalFilled] at h
  | some s =>
    simp [isTerminalFilled, TERMINAL_STATUSES, List.contains] at h
    rcases h with h | h | h <;> subst h <;> decide

/-- C3 counterexample: in an iteration where both legs report
Terminal-Filled, the stop-loss branch is indeed taken, but no
`cancel_order` call at all is issued — the target leg is not cancelled,
because the cancel is guarded by the target being still-live. -/
theorem oco_tie_no_cancel_counterexample :
    (monitor_iter sampleTrade (some (some "COMPLETE"))
        (some (some "FILLED"))).winner = some OcoWinner.stopLoss ∧
    (monitor_iter sampleTrade (some (some "COMPLETE"))
        (some (some "FILLED"))).cancel_requests = [] := by
  constructor <;> decide

/-- C3 amended: when both exit legs report Terminal-Filled in the same
iteration, the stop-loss branch is taken (it is the winner; the target
branch is not reached), the trade is resolved, and no `cancel_order`
request is issued — the target leg is only cancelled when it is
Still-Live, which a Terminal-Filled status never is. -/
theorem oco_tie_stop_loss_wins (trade : Trade) (sl_st tg_st : Option String)
    (hsl : isTerminalFilled sl_st = true)
    (htg : isTerminalFilled tg_st = true) :
    let e := monitor_iter trade (some sl_st) (some tg_st)
    e.winner = some OcoWinner.stopLoss ∧
    e.set_inactive = true ∧
    e.cancel_requests = [] := by
  have hlive := terminal_not_live tg_st htg
  simp [monitor_iter, hsl, hlive]

/-- C3 amended, witness: both legs Terminal-Filled concretely. -/
theorem oco_tie_stop_loss_wins_witness :
    (monitor_iter sampleTrade (some (some "COMPLETE"))
        (some (some "FILLED"))).winner = some OcoWinner.stopLoss ∧
    (monitor_iter sampleTrade (some (some "COMPLETE"))
        (some (some "FILLED"))).set_inactive = true ∧
    (monitor_iter sampleTrade (some (some "COMPLETE"))
        (some (some "FILLED"))).cancel_requests = [] :=
  oco_tie_stop_loss_wins sampleTrade (some "COMPLETE") (some "FILLED")
    (by decide) (by decide)

/-- A step from a state where the loop has already exited is a no-op. -/
theorem monitor_step_stuck (trade : Trade) (s : MonState) (p : Poll)
    (h : s.active = false ∨ s.resolved = true) :
    monitor_step trade s p = s := by
  simp [monitor_step, h]

/-- A run from a state where the loop has already exited is a no-op. -/
theorem monitor_run_stuck (trade : Trade) (polls : List Poll) (s : MonState)
    (h : s.active = false ∨ s.resolved = true) :
    monitor_run trade polls s = s := by
  induction polls with
  | nil => rfl
  | cons p rest ih =>
    show monitor_run trade rest (monitor_step trade s p) = s
    rw [monitor_step_stuck trade s p h, ih]

/-- An iteration resolves the race exactly when it sets the trade
inactive: the two `break` branches are the two `trade.active = False`
writes. -/
theorem monitor_iter_winner_eq_set_inactive (trade : Trade)
    (a b : Option (Option String)) :
    (monitor_iter trade a b).winner.isSome =
      (monitor_iter trade a b).set_inactive := by
  unfold monitor_iter
  by_cases h1 : a = none ∨ b = none
  · simp [h1]
  · by_cases h2 : isTerminalFilled (a.getD none) = true
    · simp [h1, h2]
    · by_cases h3 : isTerminalFilled (b.getD none) = true
      · simp [h1, h2, h3]
      · simp [h1, h2, h3]

/-- Characterisation of the flag after any run: starting from a good
state, the flag ends false exactly when it started false or some processed
iteration resolved the race. -/
theorem monitor_run_active_iff (trade : Trade) (polls : List Poll)
    (s : MonState) (hs : MonGood s) :
    ((monitor_run trade polls s).active = false ↔
      (s.active = false ∨ (monitor_run trade polls s).resolved = true)) := by
  induction polls generalizing s with
  | nil =>
    constructor
    · intro h; exact Or.inl h
    · rintro (h | h)
      · exact h
      · exact hs h
  | cons p rest ih =>
    show (monitor_run trade rest (monitor_step trade s p)).active = false ↔
      s.active = false ∨
        (monitor_run trade rest (monitor_step trade s p)).resolved = true
    by_cases hstuck : s.active = false ∨ s.resolved = true
    · rw [monitor_step_stuck trade s p hstuck]
      exact ih s hs
    · have ha : s.active = true := by
        cases hsa : s.active
        · exact absurd (Or.inl hsa) hstuck
        · rfl
      have hr : s.resolved = false := by
        cases hsr : s.resolved
        · rfl
        · exact absurd (Or.inr hsr) hstuck
      have hws := monitor_iter_winner_eq_set_inactive trade p.1 p.2
      have hstep : monitor_step trade s p =
          { active :=
              if (monitor_iter trade p.1 p.2).set_inactive then false
              else s.active,
            cancel_requests :=
              s.cancel_requests ++ (monitor_iter trade p.1 p.2).cancel_requests,
            resolved := s.resolved || (monitor_iter trade p.1 p.2).winner.isSome,
            sleeps := s.sleeps + (monitor_iter trade p.1 p.2).sleeps } := by
        simp [monitor_step, ha, hr]
      cases hset : (monitor_iter trade p.1 p.2).set_inactive
      · have hwin : (monitor_iter trade p.1 p.2).winner.isSome = false :=
          hws.trans hset
        have hgood : MonGood (monitor_step trade s p) := by
          intro hres
          rw [hstep] at hres
          simp [hr, hwin] at hres
        rw [ih (monitor_step trade s p) hgood, hstep]
        simp [ha, hset]
      · have hwin : (monitor_iter trade p.1 p.2).winner.isSome = true :=
          hws.trans hset
        have hact : (monitor_step trade s p).active = false := by
          rw [hstep]; simp [hset]
        have hres : (monitor_step trade s p).resolved = true := by
          rw [hstep]; simp [hwin]
        rw [monitor_run_stuck trade rest (monitor_step trade s p)
          (Or.inl hact)]
        simp [hact, hres]

/-- C4 counterexample: external cancellation does not drive the flag to
false.  The monitor of an active trade processes one iteration in which
both legs are still Open, the task is then cancelled externally
(`cancel_trade_orders` → `task.cancel()`), so no further loop statement
runs — and `active` is still `true` when the monitor ends. -/
theorem active_unchanged_on_external_cancel_counterexample :
    (monitor_run sampleTrade [(some (some "OPEN"), some (some "OPEN"))]
      (initMonState sampleTrade)).active = true := by decide

/-- C4 amended: the flag never reverts (once observed false after a prefix
of the polls it stays false for every extension), and over any processed
polls it ends false exactly when an iteration resolved the race (stop or
target terminal-filled) — so on the stop-filled and target-filled paths it
transitions to false exactly once, while a monitor ended by external
cancellation before resolution leaves the flag true. -/
theorem trade_active_transition (t : Trade) (p₁ p₂ : List Poll) :
    ((monitor_run t p₁ (initMonState t)).active = false →
      (monitor_run t (p₁ ++ p₂) (initMonState t)).active = false) ∧
    ((monitor_run t (p₁ ++ p₂) (initMonState t)).active = false ↔
      (t.active = false ∨
        (monitor_run t (p₁ ++ p₂) (initMonState t)).resolved = true)) := by
  have hgood : MonGood (initMonState t) := by
    intro h; simp [initMonState] at h
  constructor
  · intro h
    show (List.foldl (monitor_step t) (initMonState t) (p₁ ++ p₂)).active = false
    rw [List.foldl_append]
    have := monitor_run_stuck t p₂ (monitor_run t p₁ (initMonState t))
      (Or.inl h)
    show (monitor_run t p₂ (monitor_run t p₁ (initMonState t))).active = false
    rw [this]
    exact h
  · have := monitor_run_active_iff t (p₁ ++ p₂) (initMonState t) hgood
    simpa [initMonState] using this

/-- C4 amended, witness: a stop-loss fill drives the flag to false. -/
theorem trade_active_transition_witness :
    (monitor_run sampleTrade
        [(some (some "COMPLETE"), some (some "OPEN"))]
        (initMonState sampleTrade)).active = false ∧
    ((monitor_run sampleTrade
        [(some (some "COMPLETE"), some (some "OPEN"))]
        (initMonState sampleTrade)).active = false ↔
      (sampleTrade.active = false ∨
        (monitor_run sampleTrade
          [(some (some "COMPLETE"), some (some "OPEN"))]
          (initMonState sampleTrade)).resolved = true)) :=
  ⟨((trade_active_transition sampleTrade
      [(some (some "COMPLETE"), some (some "OPEN"))] []).2).mpr
      (Or.inr (by decide)),
   (trade_active_transition sampleTrade
      [(some (some "COMPLETE"), some (some "OPEN"))] []).2⟩

/-- Running the monitor over polls in which at least one leg's status call
returned no data: each such iteration only sleeps and retries. -/
theorem monitor_run_absent (t : Trade) (polls : List Poll) (s : MonState)
    (ha : s.active = true) (hr : s.resolved = false)
    (h : ∀ p ∈ polls, p.1 = none ∨ p.2 = none) :
    monitor_run t polls s =
      { active := s.active, cancel_requests := s.cancel_requests,
        resolved := s.resolved, sleeps := s.sleeps + polls.length } := by
  induction polls generalizing s with
  | nil => simp [monitor_run]
  | cons p rest ih =>
    have hp := h p (List.mem_cons_self p rest)
    have hiter : monitor_iter t p.1 p.2 =
        { cancel_requests := [], winner := none, set_inactive := false,
          sleeps := 1 } := by
      rcases hp with hp | hp <;> simp [monitor_iter, hp]
    have hstep : monitor_step t s p =
        { active := s.active, cancel_requests := s.cancel_requests,
          resolved := s.resolved, sleeps := s.sleeps + 1 } := by
      simp [monitor_step, ha, hr, hiter]
    show monitor_run t rest (monitor_step t s p) = _
    rw [hstep,
      ih ⟨s.active, s.cancel_requests, s.resolved, s.sleeps + 1⟩ ha hr
        (fun q hq => h q (List.mem_cons_of_mem p hq))]
    simp only [List.length_cons]
    congr 1
    omega

/-- C5: for an active trade, absent status data (for either leg) in every
iteration is a pure retry: each such iteration adds exactly one
1-second sleep, issues no cancel request, resolves nothing, and leaves
`active` unchanged — for any number of consecutive absent polls. -/
theorem monitor_absent_status_retries (t : Trade) (polls : List Poll)
    (ht : t.active = true)
    (h : ∀ p ∈ polls, p.1 = none ∨ p.2 = none) :
    monitor_run t polls (initMonState t) =
      { active := true, cancel_requests := [], resolved := false,
        sleeps := polls.length } := by
  have := monitor_run_absent t polls (initMonState t)
    (by simp [initMonState, ht]) (by simp [initMonState]) h
  simpa [initMonState, ht] using this

/-- C5 witness: two consecutive absent polls (spec Scenario 4). -/
theorem monitor_absent_status_retries_witness :
    monitor_run sampleTrade [(none, some (some "OPEN")), (none, none)]
        (initMonState sampleTrade) =
      { active := true, cancel_requests := [], resolved := false,
        sleeps := 2 } :=
  monitor_absent_status_retries sampleTrade
    [(none, some (some "OPEN")), (none, none)] (by decide) (by decide)

/-- Deleting a key from a key list makes `contains` false for it. -/
theorem contains_dict_del_key (ks : List String) (k : String) :
    (dict_del_key ks k).contains k = false := by
  induction ks with
  | nil => rfl
  | cons a rest ih =>
    by_cases h : a = k
    · simp only [dict_del_key] at ih ⊢
      simp [h, ih]
    · simp only [dict_del_key, List.filter_cons] at *
      have hne : (a != k) = true := by simp [h]
      rw [hne]
      simp only [if_true]
      simp only [List.contains_cons]
      rw [ih]
      simp [h, Ne.symm h]

/-- Deleting a key absent from a key list is a no-op. -/
theorem dict_del_key_absent (ks : List String) (k : String)
    (h : ks.contains k = false) : dict_del_key ks k = ks := by
  induction ks with
  | nil => rfl
  | cons a rest ih =>
    simp only [List.contains_cons, Bool.or_eq_false_iff] at h
    have ha : (a != k) = true := by
      simp only [bne_iff_ne, ne_eq]
      intro hak
      rw [hak] at h
      simp at h
    simp [dict_del_key, ha] at *
    exact ih h.2

/-- The keys of `dict_del` are the deleted key list of the keys. -/
theorem keys_dict_del (r : Registry) (k : String) :
    (dict_del r k).map Prod.fst = dict_del_key (r.map Prod.fst) k := by
  induction r with
  | nil => rfl
  | cons p rest ih =>
    by_cases h : p.1 = k <;>
      simp [dict_del, dict_del_key, List.filter_cons, h] at * <;>
      exact ih

/-- Inserting a key makes `contains` true for it. -/
theorem contains_dict_insert_key (ks : List String) (k : String) :
    (dict_insert_key ks k).contains k = true := by
  unfold dict_insert_key
  by_cases h : ks.contains k = true
  · rw [if_pos h]; exact h
  · rw [if_neg h]
    simp

/-- `cancel_trade_orders` always reports success (the source returns
`True` on both paths). -/
theorem cancel_trade_orders_snd (m : ExecMaps) (id : String) :
    (cancel_trade_orders m id).2 = true := by
  unfold cancel_trade_orders
  split <;> rfl

/-- The active-orders map after `_cleanup_trade_resources`. -/
theorem cleanup_active_orders (m : ExecMaps) (id : String) :
    (cleanup_trade_resources m id).active_orders =
      if id ∈ m.active_orders then dict_del_key m.active_orders id
      else m.active_orders := by
  by_cases hm : id ∈ m.active_orders <;>
    by_cases hl : id ∈ m.trade_locks <;>
    simp [cleanup_trade_resources, hm, hl]

/-- The per-trade-locks map after `_cleanup_trade_resources`. -/
theorem cleanup_trade_locks (m : ExecMaps) (id : String) :
    (cleanup_trade_resources m id).trade_locks =
      if id ∈ m.trade_locks then dict_del_key m.trade_locks id
      else m.trade_locks := by
  by_cases hm : id ∈ m.active_orders <;>
    by_cases hl : id ∈ m.trade_locks <;>
    simp [cleanup_trade_resources, hm, hl]

/-- After `cancel_trade_orders`, no monitor task is tracked for the id. -/
theorem cancel_trade_orders_fst_active (m : ExecMaps) (id : String) :
    ((cancel_trade_orders m id).1).active_orders.contains id = false := by
  by_cases hm : id ∈ m.active_orders
  · have h1 : (cancel_trade_orders m id).1 = cleanup_trade_resources m id := by
      unfold cancel_trade_orders
      rw [if_pos (by simpa using hm)]
    rw [h1, cleanup_active_orders, if_pos hm]
    exact contains_dict_del_key _ _
  · have h1 : (cancel_trade_orders m id).1 = m := by
      unfold cancel_trade_orders
      rw [if_neg (by simpa using hm)]
    rw [h1]
    simpa using hm

/-- Deleting a key absent from the registry is a no-op. -/
theorem dict_del_absent (r : Registry) (k : String)
    (h : (r.map Prod.fst).contains k = false) : dict_del r k = r := by
  induction r with
  | nil => rfl
  | cons p rest ih =>
    simp only [List.map_cons, List.contains_cons, Bool.or_eq_false_iff] at h
    have hne : (p.1 != k) = true := by
      simp only [bne_iff_ne, ne_eq]
      intro he
      rw [he] at h
      simp at h
    simp only [dict_del, List.filter_cons, hne, if_true] at *
    rw [ih h.2]

/-- `remove_active_trade` always leaves the registry with the id
deleted (deleting an absent id is the identity). -/
theorem remove_active_trade_registry (s : MgrState) (id : String) :
    (remove_active_trade s id).active_trades = dict_del s.active_trades id := by
  unfold remove_active_trade
  cases h : (s.active_trades.map Prod.fst).contains id
  · simp [h, dict_del_absent _ _ h]
  · simp [h]

/-- `remove_active_trade` does not touch the executor maps. -/
theorem remove_active_trade_exec (s : MgrState) (id : String) :
    (remove_active_trade s id).exec = s.exec := by
  unfold remove_active_trade
  split <;> rfl

/-- `cancel_trade` unfolded on its (always-success) path. -/
theorem cancel_trade_eq (s : MgrState) (id : String) :
    cancel_trade s id =
      (remove_active_trade
        { s with exec := (cancel_trade_orders s.exec id).1 } id, true) := by
  unfold cancel_trade
  simp [cancel_trade_orders_snd]

/-- The registry after `cancel_trade` is the registry minus the id. -/
theorem cancel_trade_registry (s : MgrState) (id : String) :
    (cancel_trade s id).1.active_trades = dict_del s.active_trades id := by
  rw [cancel_trade_eq]
  exact remove_active_trade_registry _ id

/-- After `cancel_trade`, the id is not a registry key. -/
theorem cancel_trade_registry_not_contains (s : MgrState) (id : String) :
    ((cancel_trade s id).1.active_trades.map Prod.fst).contains id = false := by
  rw [cancel_trade_registry, keys_dict_del]
  exact contains_dict_del_key _ _

/-- After `cancel_trade`, the executor tracks no task for the id. -/
theorem cancel_trade_exec_active (s : MgrState) (id : String) :
    (cancel_trade s id).1.exec.active_orders.contains id = false := by
  rw [cancel_trade_eq]
  show (remove_active_trade _ id).exec.active_orders.contains id = false
  rw [remove_active_trade_exec]
  exact cancel_trade_orders_fst_active s.exec id

/-- C6: `TradeManager.cancel_trade` is total and idempotent over trade
ids: it always reports success; on an id absent from both the registry and
the executor's task map it leaves the whole state unchanged; and a second
call on the same id returns the first call's state unchanged, again with
success. -/
theorem cancel_trade_idempotent (s : MgrState) (id : String) :
    (cancel_trade s id).2 = true ∧
    ((s.active_trades.map Prod.fst).contains id = false →
      s.exec.active_orders.contains id = false →
      (cancel_trade s id).1 = s) ∧
    cancel_trade (cancel_trade s id).1 id = ((cancel_trade s id).1, true) := by
  refine ⟨?_, ?_, ?_⟩
  · rw [cancel_trade_eq]
  · intro h1 h2
    rw [cancel_trade_eq]
    have hcto : cancel_trade_orders s.exec id = (s.exec, true) := by
      unfold cancel_trade_orders
      rw [if_neg (ne_true_of_eq_false h2)]
    rw [hcto]
    show remove_active_trade s id = s
    unfold remove_active_trade
    rw [if_neg (ne_true_of_eq_false h1)]
  · have h1 := cancel_trade_registry_not_contains s id
    have h2 := cancel_trade_exec_active s id
    rw [cancel_trade_eq ((cancel_trade s id).1) id]
    have hcto : cancel_trade_orders (cancel_trade s id).1.exec id =
        ((cancel_trade s id).1.exec, true) := by
      unfold cancel_trade_orders
      rw [if_neg (ne_true_of_eq_false h2)]
    rw [hcto]
    show (remove_active_trade (cancel_trade s id).1 id, true) = _
    unfold remove_active_trade
    rw [if_neg (ne_true_of_eq_false h1)]

/-- C6 witness: cancelling an id unknown to an empty manager, twice. -/
theorem cancel_trade_idempotent_witness :
    (cancel_trade emptyMgrState "TR1").2 = true ∧
    (cancel_trade emptyMgrState "TR1").1 = emptyMgrState ∧
    cancel_trade (cancel_trade emptyMgrState "TR1").1 "TR1" =
      ((cancel_trade emptyMgrState "TR1").1, true) :=
  ⟨(cancel_trade_idempotent emptyMgrState "TR1").1,
   (cancel_trade_idempotent emptyMgrState "TR1").2.1 rfl rfl,
   (cancel_trade_idempotent emptyMgrState "TR1").2.2⟩

/-- Membership in the keys after a registry delete. -/
theorem mem_keys_dict_del (r : Registry) (k a : String) :
    a ∈ (dict_del r k).map Prod.fst ↔ (a ∈ r.map Prod.fst ∧ a ≠ k) := by
  rw [keys_dict_del]
  simp [dict_del_key, List.mem_filter]

/-- Cancelling every id of a list that covers all registry keys empties
the registry. -/
theorem foldl_cancel_all_empties (ids : List String) (s : MgrState)
    (h : ∀ k ∈ s.active_trades.map Prod.fst, k ∈ ids) :
    (ids.foldl (fun st id => (cancel_trade st id).1) s).active_trades = [] := by
  induction ids generalizing s with
  | nil =>
    cases hr : s.active_trades with
    | nil => simp [hr]
    | cons p rest => exact absurd (h p.1 (by simp [hr])) (by simp)
  | cons id rest ih =>
    show (rest.foldl (fun st id => (cancel_trade st id).1)
      (cancel_trade s id).1).active_trades = []
    apply ih
    intro k hk
    rw [cancel_trade_registry, mem_keys_dict_del] at hk
    have hmem := h k hk.1
    simp only [List.mem_cons] at hmem
    rcases hmem with he | hm
    · exact absurd he hk.2
    · exact hm

/-- `heldAcrossSusp` over a concatenation. -/
theorem heldAcrossSusp_append (l : LockId) (t1 t2 : List Ev) (h : Bool) :
    heldAcrossSusp l (t1 ++ t2) h =
      (heldAcrossSusp l t1 h || heldAcrossSusp l t2 (heldAfter l t1 h)) := by
  induction t1 generalizing h with
  | nil => simp [heldAcrossSusp, heldAfter]
  | cons e rest ih =>
    cases e <;> simp [heldAcrossSusp, heldAfter, ih, Bool.or_assoc]

/-- One `cancel_trade`'s trace neither suspends while holding the trade
lock nor leaves it held. -/
theorem cancel_trade_events_clean (m : ExecMaps) (id : String) :
    heldAcrossSusp LockId.tradeLock (cancel_trade_events m id) false = false ∧
    heldAfter LockId.tradeLock (cancel_trade_events m id) false = false := by
  unfold cancel_trade_events
  by_cases hm : id ∈ m.active_orders <;>
    simp [hm, heldAcrossSusp, heldAfter]

/-- The sequential cancellations of `cancel_all_trades` never suspend
while holding the trade lock. -/
theorem cancel_each_events_clean (ids : List String) (s : MgrState) :
    heldAcrossSusp LockId.tradeLock (cancel_each_events s ids) false = false := by
  induction ids generalizing s with
  | nil => rfl
  | cons id rest ih =>
    show heldAcrossSusp _ (cancel_trade_events s.exec id ++
      cancel_each_events (cancel_trade s id).1 rest) false = false
    rw [heldAcrossSusp_append, (cancel_trade_events_clean s.exec id).1,
      (cancel_trade_events_clean s.exec id).2]
    simp [ih]

/-- C7: from every starting state, `cancel_all_trades` leaves the
`active_trades` registry empty — whatever the executor and gateway state
(leg-cancel outcomes never feed back into the registry) — and its event
trace never suspends while the trade-registry lock is held: the ids are
snapshotted under the lock and each cancellation runs with it released. -/
theorem cancel_all_trades_empties (s : MgrState) :
    (cancel_all_trades s).active_trades = [] ∧
    heldAcrossSusp LockId.tradeLock (cancel_all_trades_events s) false = false := by
  constructor
  · exact foldl_cancel_all_empties (s.active_trades.map Prod.fst) s
      (fun k hk => hk)
  · show heldAcrossSusp _ (Ev.acquire LockId.tradeLock ::
      Ev.release LockId.tradeLock ::
      cancel_each_events s (s.active_trades.map Prod.fst)) false = false
    simp only [heldAcrossSusp, Bool.or_false, Bool.false_or, beq_self_eq_true,
      Bool.and_false, Bool.not_true, Bool.true_and, Bool.false_and]
    exact cancel_each_events_clean (s.active_trades.map Prod.fst) s

/-- C8 counterexample: `execute_new_trade` suspends (awaits the entry
placement inside the executor) while holding the trade-registry lock —
already on the shortest path, where the entry placement returns no id. -/
theorem lock_held_across_suspension_counterexample :
    heldAcrossSusp LockId.tradeLock (execute_new_trade_events [none]) false =
      true := by decide

/-- C8 amended: the actual lock discipline.  `execute_new_trade` always
suspends while holding the trade lock (the executor's awaited gateway
calls run inside `async with self.trade_lock`), and
`start_ltp_stream_for_symbol` suspends while holding the stream lock
whenever it replaces an existing stream (it awaits the cancelled old
task under the lock); the bulk cancel path, by contrast, never suspends
under the trade lock. -/
theorem registry_lock_discipline (responses : List (Option String))
    (streams : List String) (symbol : String) (s : MgrState)
    (hs : streams.contains symbol = true) :
    heldAcrossSusp LockId.tradeLock (execute_new_trade_events responses)
      false = true ∧
    heldAcrossSusp LockId.streamLock (start_ltp_stream_events streams symbol)
      false = true ∧
    heldAcrossSusp LockId.tradeLock (cancel_all_trades_events s) false =
      false := by
  refine ⟨?_, ?_, (cancel_all_trades_empties s).2⟩
  · simp [execute_new_trade_events, execute_trade_susps, heldAcrossSusp]
  · have hmem : symbol ∈ streams := by simpa using hs
    simp [start_ltp_stream_events, hmem, heldAcrossSusp]

/-- C8 amended, witness. -/
theorem registry_lock_discipline_witness :
    heldAcrossSusp LockId.tradeLock (execute_new_trade_events [some "O1"])
      false = true ∧
    heldAcrossSusp LockId.streamLock (start_ltp_stream_events ["XYZ"] "XYZ")
      false = true ∧
    heldAcrossSusp LockId.tradeLock (cancel_all_trades_events emptyMgrState)
      false = false :=
  registry_lock_discipline [some "O1"] ["XYZ"] "XYZ" emptyMgrState (by decide)

/-- A fresh executor's cycle (register then clean up) returns to fresh. -/
theorem monitor_cycle_empty (id : String) :
    monitor_cycle emptyExecMaps id = emptyExecMaps := by
  have h1 : start_order_monitoring emptyExecMaps id =
      { active_orders := [id], trade_locks := [id] } := by
    simp [start_order_monitoring, dict_insert_key, emptyExecMaps]
  show cleanup_trade_resources (start_order_monitoring emptyExecMaps id) id =
    emptyExecMaps
  rw [h1]
  simp [cleanup_trade_resources, dict_del_key, emptyExecMaps]

/-- Sequential complete monitor lifecycles starting from a fresh executor
leave it fresh. -/
theorem foldl_monitor_cycle_empty (ids : List String) :
    ids.foldl monitor_cycle emptyExecMaps = emptyExecMaps := by
  induction ids with
  | nil => rfl
  | cons id rest ih =>
    show rest.foldl monitor_cycle (monitor_cycle emptyExecMaps id) =
      emptyExecMaps
    rw [monitor_cycle_empty, ih]

/-- C9: when a trade's monitor task completes (OCO resolution or external
cancellation alike), the one completion callback removes the trade id from
both the executor's task-tracking map and its per-trade lock map — from
any prior map state — and N sequential submit/resolve cycles leave both
maps exactly as they started: empty. -/
theorem monitor_cleanup_reclaims (m : ExecMaps) (id : String)
    (ids : List String) :
    (monitor_cycle m id).active_orders.contains id = false ∧
    (monitor_cycle m id).trade_locks.contains id = false ∧
    ids.foldl monitor_cycle emptyExecMaps = emptyExecMaps := by
  refine ⟨?_, ?_, foldl_monitor_cycle_empty ids⟩
  · unfold monitor_cycle
    rw [cleanup_active_orders,
      if_pos (by simpa using contains_dict_insert_key m.active_orders id)]
    exact contains_dict_del_key _ _
  · unfold monitor_cycle
    rw [cleanup_trade_locks,
      if_pos (by simpa using contains_dict_insert_key m.trade_locks id)]
    exact contains_dict_del_key _ _

/-- Setting a key makes it a registry key. -/
theorem contains_keys_dict_set (r : Registry) (k : String) (v : Trade) :
    ((dict_set r k v).map Prod.fst).contains k = true := by
  unfold dict_set
  by_cases h : k ∈ r.map Prod.fst
  · rw [if_pos (by simpa using h)]
    have hmem : k ∈ (r.map (fun p => if p.1 = k then (k, v) else p)).map
        Prod.fst := by
      rcases List.mem_map.mp h with ⟨p, hp, hpk⟩
      refine List.mem_map.mpr ⟨(k, v), List.mem_map.mpr ⟨p, hp, ?_⟩, rfl⟩
      rw [if_pos hpk]
    simpa using hmem
  · rw [if_neg (by simpa using h)]
    simp

/-- C10: `execute_new_trade` never writes the `active_trades` registry —
whatever the executor returns, the registry (and hence
`get_active_trades_count` and `get_overall_status`) is exactly as before —
and a trade enters the registry only through `add_active_trade`. -/
theorem execute_new_trade_registry_frame (s : MgrState) (symbol : String)
    (side : TradeSide) (quantity : Nat)
    (entry_price stop_loss_points target_points : ℚ)
    (responses : List (Option String)) (trade_uuid : String) (t : Trade) :
    (mgr_execute_new_trade s symbol side quantity entry_price stop_loss_points
        target_points responses trade_uuid).1.active_trades =
      s.active_trades ∧
    get_active_trades_count (mgr_execute_new_trade s symbol side quantity
        entry_price stop_loss_points target_points responses trade_uuid).1 =
      get_active_trades_count s ∧
    get_overall_status (mgr_execute_new_trade s symbol side quantity
        entry_price stop_loss_points target_points responses trade_uuid).1 =
      get_overall_status s ∧
    ((add_active_trade s t).active_trades.map Prod.fst).contains t.trade_id =
      true := by
  have h1 : (mgr_execute_new_trade s symbol side quantity entry_price
      stop_loss_points target_points responses trade_uuid).1.active_trades =
      s.active_trades := by
    unfold mgr_execute_new_trade
    cases (execute_trade symbol side quantity entry_price stop_loss_points
      target_points responses trade_uuid).monitored <;> rfl
  refine ⟨h1, ?_, ?_, contains_keys_dict_set s.active_trades t.trade_id t⟩
  · unfold get_active_trades_count
    rw [h1]
  · unfold get_overall_status get_active_trades_count get_active_trades
    rw [h1]
